/-
  Verification of the argonic JSON-RPC 2.0 message model.

  Shallow embedding of the (de)serialization logic of
  `src/notification.rs`, `src/request.rs`, `src/response.rs` and
  `src/transport/mod.rs`. JSON values are modelled by an inductive `Json`
  whose objects are association lists of key/value pairs, matching the
  key-by-key stream the serde `visit_map` loops consume (so duplicate keys
  are representable, as they are for a streaming deserializer). serde_json
  numbers are either integers (the `visit_u64`/`visit_i64` arms) or
  floating-point values, which the code inspects only for finiteness
  (`Number::from_f64` fails exactly on non-finite input), so a float is
  modelled abstractly as a finiteness flag plus an identifying
  representation.
-/
import Mathlib

/-- A serde_json number: an integer (the `u64`/`i64` arms) or an abstract
floating-point value carrying only what the code observes: whether it is
finite, plus an opaque representation used for structural equality. -/
inductive JNumber where
  | int (n : Int)
  | float (finite : Bool) (val : Int)
deriving DecidableEq, Repr

/-- A generic JSON value (`serde_json::Value` / the MapAccess stream seen by
the visitors). Objects are association lists in source order, so duplicate
keys are representable as they are for a streaming deserializer. -/
inductive Json where
  | null
  | bool (b : Bool)
  | num (n : JNumber)
  | str (s : String)
  | arr (elems : List Json)
  | obj (fields : List (String × Json))

/-- `Value::is_null`. -/
def Json.isNull : Json → Bool
  | .null => true
  | _ => false

/-- The serde error taxonomy the visitors use: `missing_field`,
`duplicate_field`, `unknown_field`, `Error::custom` (with its message), and
`invalid_type` (carrying the visitor's `expecting` description). -/
inductive DecodeError where
  | missingField (f : String)
  | duplicateField (f : String)
  | unknownField (f : String)
  | custom (msg : String)
  | typeMismatch (expected : String)
deriving DecidableEq, Repr

/-- Whether an `Except` is in the error case. -/
def Except.isErr : Except ε α → Bool
  | .error _ => true
  | .ok _ => false

/-- The keys of an object's field list, in source order. -/
def fieldKeys (fields : List (String × Json)) : List String :=
  fields.map Prod.fst

/-- The zero-size version marker of `request.rs` (`struct JsonRpcVersion`). -/
structure JsonRpcVersion where
deriving DecidableEq, Repr

/-- `JsonRpcVersion::deserialize`: `deserialize_str` with a visitor accepting
exactly the string "2.0"; any non-string shape is an `invalid_type` error. -/
def JsonRpcVersion.deserialize : Json → Except DecodeError JsonRpcVersion
  | .str s =>
    if s = "2.0" then .ok ⟨⟩
    else .error (.custom ("invalid JSON-RPC version: " ++ s))
  | _ => .error (.typeMismatch "a JSON-RPC 2.0 version string")

/-- `enum RequestId` of `request.rs`: a number, a string, or null. -/
inductive RequestId where
  | Number (n : JNumber)
  | String (s : String)
  | Null
deriving DecidableEq, Repr

/-- `RequestId::serialize`: number as JSON number, string as JSON string,
null via `serialize_none`. -/
def RequestId.serialize : RequestId → Json
  | .Number n => .num n
  | .String s => .str s
  | .Null => .null

/-- `RequestId::deserialize`: `deserialize_any`, so the input shape selects
the visitor method: strings via `visit_str`, integers via
`visit_u64`/`visit_i64`, floats via `visit_f64` (where `Number::from_f64`
fails on non-finite input with "invalid number"), null via `visit_unit`;
every other shape hits the visitor's default methods, an `invalid_type`
error with the `expecting` description. -/
def RequestId.deserialize : Json → Except DecodeError RequestId
  | .null => .ok .Null
  | .str s => .ok (.String s)
  | .num (.int n) => .ok (.Number (.int n))
  | .num (.float finite v) =>
    if finite then .ok (.Number (.float finite v))
    else .error (.custom "invalid number")
  | _ => .error (.typeMismatch "a string, number, or null")

/-- A `RequestId` constructible by serde_json: its number, if floating
point, is finite (`serde_json::Number` never holds a non-finite float). -/
def RequestId.isValid : RequestId → Bool
  | .Number (.float finite _) => finite
  | _ => true

/-- `next_value::<String>()` on a generic JSON value. -/
def decodeString : Json → Except DecodeError String
  | .str s => .ok s
  | _ => .error (.typeMismatch "a string")

/-- `struct Notification` of `notification.rs`. -/
structure Notification where
  method : String
  params : Option Json

/-- `Notification::serialize`: emits `jsonrpc`, `method`, and `params` only
when present. -/
def Notification.serialize (n : Notification) : Json :=
  .obj ([("jsonrpc", .str "2.0"), ("method", .str n.method)] ++
    (match n.params with
     | some p => [("params", p)]
     | none => []))

/-- The field loop of `NotificationVisitor::visit_map`: walks the key/value
stream accumulating `jsonrpc`, `method`, `params`, rejecting duplicates,
rejecting `id` with a dedicated error, rejecting unknown keys, then checks
the required fields. -/
def Notification.visitMap :
    List (String × Json) → Option JsonRpcVersion → Option String →
    Option (Option Json) → Except DecodeError Notification
  | [], jsonrpc, method, params =>
    match jsonrpc with
    | none => .error (.missingField "jsonrpc")
    | some _ =>
      match method with
      | none => .error (.missingField "method")
      | some m => .ok ⟨m, params.getD none⟩
  | (k, v) :: rest, jsonrpc, method, params =>
    if k = "jsonrpc" then
      if jsonrpc.isSome then .error (.duplicateField "jsonrpc")
      else
        match JsonRpcVersion.deserialize v with
        | .error e => .error e
        | .ok ver => Notification.visitMap rest (some ver) method params
    else if k = "method" then
      if method.isSome then .error (.duplicateField "method")
      else
        match decodeString v with
        | .error e => .error e
        | .ok m => Notification.visitMap rest jsonrpc (some m) params
    else if k = "params" then
      if params.isSome then .error (.duplicateField "params")
      else Notification.visitMap rest jsonrpc method (some (some v))
    else if k = "id" then
      .error (.custom "notifications must not include an id")
    else
      .error (.unknownField k)

/-- `Notification::deserialize`: `deserialize_map`, so only an object is
accepted; its fields run through the visitor loop. -/
def Notification.deserialize : Json → Except DecodeError Notification
  | .obj fields => Notification.visitMap fields none none none
  | _ => .error (.typeMismatch "a JSON-RPC 2.0 notification object")

/-- `struct Request` of `request.rs`. -/
structure Request where
  method : String
  params : Option Json
  id : RequestId

/-- `Request::serialize`: emits `jsonrpc`, `method`, `params` only when
present, then `id`. -/
def Request.serialize (r : Request) : Json :=
  .obj ([("jsonrpc", .str "2.0"), ("method", .str r.method)] ++
    (match r.params with
     | some p => [("params", p)]
     | none => []) ++
    [("id", r.id.serialize)])

/-- The field loop of `RequestVisitor::visit_map`: like the notification
loop but with a required `id` field decoded as a `RequestId`. -/
def Request.visitMap :
    List (String × Json) → Option JsonRpcVersion → Option String →
    Option (Option Json) → Option RequestId → Except DecodeError Request
  | [], jsonrpc, method, params, id =>
    match jsonrpc with
    | none => .error (.missingField "jsonrpc")
    | some _ =>
      match method with
      | none => .error (.missingField "method")
      | some m =>
        match id with
        | none => .error (.missingField "id")
        | some i => .ok ⟨m, params.getD none, i⟩
  | (k, v) :: rest, jsonrpc, method, params, id =>
    if k = "jsonrpc" then
      if jsonrpc.isSome then .error (.duplicateField "jsonrpc")
      else
        match JsonRpcVersion.deserialize v with
        | .error e => .error e
        | .ok ver => Request.visitMap rest (some ver) method params id
    else if k = "method" then
      if method.isSome then .error (.duplicateField "method")
      else
        match decodeString v with
        | .error e => .error e
        | .ok m => Request.visitMap rest jsonrpc (some m) params id
    else if k = "params" then
      if params.isSome then .error (.duplicateField "params")
      else Request.visitMap rest jsonrpc method (some (some v)) id
    else if k = "id" then
      if id.isSome then .error (.duplicateField "id")
      else
        match RequestId.deserialize v with
        | .error e => .error e
        | .ok i => Request.visitMap rest jsonrpc method params (some i)
    else
      .error (.unknownField k)

/-- `Request::deserialize`: `deserialize_map`, so only an object is
accepted; its fields run through the visitor loop. -/
def Request.deserialize : Json → Except DecodeError Request
  | .obj fields => Request.visitMap fields none none none none
  | _ => .error (.typeMismatch "a JSON-RPC 2.0 request object")

/-- `enum ErrorCode` of `response.rs`. -/
inductive ErrorCode where
  | ParseError
  | InvalidRequest
  | MethodNotFound
  | InvalidParams
  | InternalError
  | ServerError (code : Int)
  | ApplicationError (code : Int)
deriving DecidableEq, Repr

/-- `impl From<ErrorCode> for i64`. -/
def ErrorCode.toInt : ErrorCode → Int
  | .ParseError => -32700
  | .InvalidRequest => -32600
  | .MethodNotFound => -32601
  | .InvalidParams => -32602
  | .InternalError => -32603
  | .ServerError code => code
  | .ApplicationError code => code

/-- `impl From<i64> for ErrorCode`: the match arms in source order,
including the guarded arm `code if code < -32000 && code > -32099`. -/
def ErrorCode.fromInt (code : Int) : ErrorCode :=
  if code = -32700 then .ParseError
  else if code = -32600 then .InvalidRequest
  else if code = -32601 then .MethodNotFound
  else if code = -32602 then .InvalidParams
  else if code = -32603 then .InternalError
  else if code < -32000 ∧ code > -32099 then .ServerError code
  else .ApplicationError code

/-- `i64::deserialize` on a generic JSON value: succeeds exactly on an
integer JSON number within the `i64` range (floats and every non-number
shape are `invalid_type` errors, as is a `u64` above `i64::MAX`). -/
def decodeI64 : Json → Except DecodeError Int
  | .num (.int n) =>
    if -(2 ^ 63) ≤ n ∧ n < 2 ^ 63 then .ok n
    else .error (.typeMismatch "i64")
  | _ => .error (.typeMismatch "i64")

/-- `ErrorCode::deserialize`: deserialize an `i64`, then apply
`From<i64>` (never fails on an in-range integer). -/
def ErrorCode.deserialize (v : Json) : Except DecodeError ErrorCode :=
  match decodeI64 v with
  | .error e => .error e
  | .ok n => .ok (ErrorCode.fromInt n)

/-- `ErrorCode::serialize`: serializes as its `i64`. -/
def ErrorCode.serialize (c : ErrorCode) : Json :=
  .num (.int c.toInt)

/-- `struct ResponseError` of `response.rs`. -/
structure ResponseError where
  code : ErrorCode
  message : String
  data : Option Json

/-- `ResponseError::serialize`: always emits `code`, `message`, `data`
(an absent `data` serializes as JSON null: `Option::None` serializes via
`serialize_none`). -/
def ResponseError.serialize (e : ResponseError) : Json :=
  .obj [("code", e.code.serialize), ("message", .str e.message),
        ("data", e.data.getD .null)]

/-- The field loop of `ResponseErrorVisitor::visit_map`: accumulates
`code`, `message`, `data`, rejects duplicates and unknown keys, requires
`code` and `message`, and normalizes a null `data` to absent. -/
def ResponseError.visitMap :
    List (String × Json) → Option ErrorCode → Option String →
    Option Json → Except DecodeError ResponseError
  | [], code, message, data =>
    match code with
    | none => .error (.missingField "code")
    | some c =>
      match message with
      | none => .error (.missingField "message")
      | some m =>
        .ok ⟨c, m, data.bind (fun d => if d.isNull then none else some d)⟩
  | (k, v) :: rest, code, message, data =>
    if k = "code" then
      if code.isSome then .error (.duplicateField "code")
      else
        match ErrorCode.deserialize v with
        | .error e => .error e
        | .ok c => ResponseError.visitMap rest (some c) message data
    else if k = "message" then
      if message.isSome then .error (.duplicateField "message")
      else
        match decodeString v with
        | .error e => .error e
        | .ok m => ResponseError.visitMap rest code (some m) data
    else if k = "data" then
      if data.isSome then .error (.duplicateField "data")
      else ResponseError.visitMap rest code message (some v)
    else
      .error (.unknownField k)

/-- `ResponseError::deserialize`: `deserialize_map`, so only an object is
accepted; its fields run through the visitor loop. -/
def ResponseError.deserialize : Json → Except DecodeError ResponseError
  | .obj fields => ResponseError.visitMap fields none none none
  | _ => .error (.typeMismatch "a JSON-RPC 2.0 error object")

/-- `enum ResponseResult` of `response.rs`. -/
inductive ResponseResult where
  | Ok (v : Json)
  | Err (e : ResponseError)

/-- `struct Response` of `response.rs`. -/
structure Response where
  id : RequestId
  result : ResponseResult

/-- `Response::serialize`: emits `jsonrpc`, `id`, then `result` or `error`
according to the active variant, never both. -/
def Response.serialize (r : Response) : Json :=
  .obj ([("jsonrpc", .str "2.0"), ("id", r.id.serialize)] ++
    (match r.result with
     | .Ok v => [("result", v)]
     | .Err e => [("error", e.serialize)]))

/-- The field loop of `ResponseVisitor::visit_map`: accumulates `jsonrpc`,
`id`, `result`, `error`; setting `result` when `error` is already set (or
vice versa) is the "cannot have both" error; at the end `result.or(error)`
must be set or the "missing both" error is raised. -/
def Response.visitMap :
    List (String × Json) → Option JsonRpcVersion → Option RequestId →
    Option ResponseResult → Option ResponseResult → Except DecodeError Response
  | [], jsonrpc, id, result, err =>
    match jsonrpc with
    | none => .error (.missingField "jsonrpc")
    | some _ =>
      match id with
      | none => .error (.missingField "id")
      | some i =>
        match result with
        | some r => .ok ⟨i, r⟩
        | none =>
          match err with
          | some r => .ok ⟨i, r⟩
          | none => .error (.custom "missing both result and error fields")
  | (k, v) :: rest, jsonrpc, id, result, err =>
    if k = "jsonrpc" then
      if jsonrpc.isSome then .error (.duplicateField "jsonrpc")
      else
        match JsonRpcVersion.deserialize v with
        | .error e => .error e
        | .ok ver => Response.visitMap rest (some ver) id result err
    else if k = "id" then
      if id.isSome then .error (.duplicateField "id")
      else
        match RequestId.deserialize v with
        | .error e => .error e
        | .ok i => Response.visitMap rest jsonrpc (some i) result err
    else if k = "result" then
      if result.isSome then .error (.duplicateField "result")
      else if err.isSome then
        .error (.custom "cannot have both result and error fields")
      else Response.visitMap rest jsonrpc id (some (.Ok v)) err
    else if k = "error" then
      if err.isSome then .error (.duplicateField "error")
      else if result.isSome then
        .error (.custom "cannot have both result and error fields")
      else
        match ResponseError.deserialize v with
        | .error e => .error e
        | .ok pe => Response.visitMap rest jsonrpc id result (some (.Err pe))
    else
      .error (.unknownField k)

/-- `Response::deserialize`: `deserialize_map`, so only an object is
accepted; its fields run through the visitor loop. -/
def Response.deserialize : Json → Except DecodeError Response
  | .obj fields => Response.visitMap fields none none none none
  | _ => .error (.typeMismatch "a JSON-RPC 2.0 response object")

/-- `enum Message` of `transport/mod.rs`. -/
inductive Message where
  | Request (req : Request)
  | Response (resp : Response)
  | Notification (notif : Notification)
  | BatchRequest (reqs : List Request)

/-- `Vec::<Request>::deserialize` element loop: decode each element as a
`Request`, stopping at the first failure. -/
def decodeRequests : List Json → Except DecodeError (List Request)
  | [] => .ok []
  | x :: xs =>
    match Request.deserialize x with
    | .error e => .error e
    | .ok r =>
      match decodeRequests xs with
      | .error e => .error e
      | .ok rs => .ok (r :: rs)

/-- `Vec::<Request>::deserialize` on a generic JSON value: only an array is
accepted; its elements run through the element loop. -/
def decodeRequestSeq : Json → Except DecodeError (List Request)
  | .arr xs => decodeRequests xs
  | _ => .error (.typeMismatch "a sequence")

/-- `Message::serialize`: variant dispatch to the entity serializers; a
batch serializes as the JSON array of its requests' serializations. -/
def Message.serialize : Message → Json
  | .Request r => r.serialize
  | .Response r => r.serialize
  | .Notification n => n.serialize
  | .BatchRequest rs => .arr (rs.map Request.serialize)

/-- `Message::deserialize`: the payload is first materialized as a generic
JSON value (`serde_json::Value::deserialize`), then trial-decoded as
Notification, Request, Response, `Vec<Request>` in that order; the first
success wins and a single aggregate error is produced when all four fail. -/
def Message.deserialize (v : Json) : Except DecodeError Message :=
  match Notification.deserialize v with
  | .ok n => .ok (.Notification n)
  | .error _ =>
    match Request.deserialize v with
    | .ok r => .ok (.Request r)
    | .error _ =>
      match Response.deserialize v with
      | .ok r => .ok (.Response r)
      | .error _ =>
        match decodeRequestSeq v with
        | .ok rs => .ok (.BatchRequest rs)
        | .error _ =>
          .error (.custom "data did not match any variant of Message")

/-- An `ErrorCode` value as `From<i64>` produces it: the numeric payload of
a `ServerError` lies strictly inside the reserved band, the payload of an
`ApplicationError` is neither a named code nor strictly inside the band,
and either payload fits in an `i64`. -/
def ErrorCode.isCanonical : ErrorCode → Bool
  | .ServerError n =>
    decide (n < -32000 ∧ n > -32099 ∧ -(2 ^ 63) ≤ n ∧ n < 2 ^ 63)
  | .ApplicationError n =>
    decide (n ≠ -32700 ∧ n ≠ -32600 ∧ n ≠ -32601 ∧ n ≠ -32602 ∧ n ≠ -32603 ∧
      ¬(n < -32000 ∧ n > -32099) ∧ -(2 ^ 63) ≤ n ∧ n < 2 ^ 63)
  | _ => true

/-- A `ResponseError` value as decode produces it: canonical code and no
explicit-null `data` (decode normalizes null away). -/
def ResponseError.isValid (e : ResponseError) : Bool :=
  e.code.isCanonical && (match e.data with
    | some d => !d.isNull
    | none => true)

/-- A `Response` value as decode produces it: valid id and, in the error
case, a valid error payload. -/
def Response.isValid (r : Response) : Bool :=
  r.id.isValid && (match r.result with
    | .Ok _ => true
    | .Err e => e.isValid)

/-! ### Helper lemmas -/

/-- The strict-band classification of `From<i64> for ErrorCode`, fully
split by the guard. -/
lemma errorCode_fromInt_server (n : Int) (h1 : n < -32000) (h2 : n > -32099) :
    ErrorCode.fromInt n = .ServerError n := by
  unfold ErrorCode.fromInt
  split_ifs <;> first | rfl | omega

/-- Integers outside the five named codes and the strict band map to
`ApplicationError`. -/
lemma errorCode_fromInt_application (m : Int)
    (hm1 : m ≠ -32700) (hm2 : m ≠ -32600) (hm3 : m ≠ -32601)
    (hm4 : m ≠ -32602) (hm5 : m ≠ -32603)
    (hm6 : ¬(m < -32000 ∧ m > -32099)) :
    ErrorCode.fromInt m = .ApplicationError m := by
  unfold ErrorCode.fromInt
  split_ifs <;> first | rfl | (exfalso; omega)

/-- The payload of a canonical error code fits in an `i64`. -/
lemma errorCode_toInt_range (c : ErrorCode) (h : c.isCanonical = true) :
    -(2 ^ 63) ≤ c.toInt ∧ c.toInt < 2 ^ 63 := by
  cases c <;>
    simp only [ErrorCode.isCanonical, ErrorCode.toInt, decide_eq_true_eq] at h ⊢ <;>
    omega

/-- `From<i64>` inverts `From<ErrorCode>` on canonical codes. -/
lemma errorCode_fromInt_toInt (c : ErrorCode) (h : c.isCanonical = true) :
    ErrorCode.fromInt c.toInt = c := by
  cases c with
  | ParseError => decide
  | InvalidRequest => decide
  | MethodNotFound => decide
  | InvalidParams => decide
  | InternalError => decide
  | ServerError n =>
    simp only [ErrorCode.isCanonical, decide_eq_true_eq] at h
    exact errorCode_fromInt_server n h.1 h.2.1
  | ApplicationError n =>
    simp only [ErrorCode.isCanonical, decide_eq_true_eq] at h
    exact errorCode_fromInt_application n h.1 h.2.1 h.2.2.1 h.2.2.2.1 h.2.2.2.2.1
      h.2.2.2.2.2.1

/-- `i64::deserialize` accepts an in-range integer unchanged. -/
lemma decodeI64_int (n : Int) (h1 : -(2 ^ 63) ≤ n) (h2 : n < 2 ^ 63) :
    decodeI64 (.num (.int n)) = .ok n := by
  simp only [decodeI64]
  rw [if_pos ⟨h1, h2⟩]

/-! ### C3 — server-error band conversion -/

/-- C3 counterexample: −32000 lies in the claimed inclusive band
−32099 … −32000, yet `From<i64>` classifies it as `ApplicationError`, not
`ServerError` (the guard `code < -32000 && code > -32099` is strict), and
likewise for −32099. -/
theorem errorCode_band_boundary_counterexample :
    ((-32099 : Int) ≤ -32000 ∧ (-32000 : Int) ≤ -32000) ∧
    ErrorCode.fromInt (-32000) = .ApplicationError (-32000) ∧
    ErrorCode.fromInt (-32000) ≠ .ServerError (-32000) ∧
    ErrorCode.fromInt (-32099) = .ApplicationError (-32099) ∧
    ErrorCode.fromInt (-32099) ≠ .ServerError (-32099) := by
  refine ⟨⟨by norm_num, le_refl _⟩, by decide, by decide, by decide, by decide⟩

/-- C3 (amended): conversion from an integer never fails (it is a total
function); the five named codes map exactly; every integer strictly
between −32099 and −32000 maps to the labeled server-error variant
carrying it; the boundary values −32099 and −32000 themselves, and every
other remaining integer, map to the application-defined variant. -/
theorem errorCode_fromInt_classification (n m : Int)
    (hn1 : n < -32000) (hn2 : n > -32099)
    (hm1 : m ≠ -32700) (hm2 : m ≠ -32600) (hm3 : m ≠ -32601)
    (hm4 : m ≠ -32602) (hm5 : m ≠ -32603)
    (hm6 : ¬(m < -32000 ∧ m > -32099)) :
    ErrorCode.fromInt (-32700) = .ParseError ∧
    ErrorCode.fromInt (-32600) = .InvalidRequest ∧
    ErrorCode.fromInt (-32601) = .MethodNotFound ∧
    ErrorCode.fromInt (-32602) = .InvalidParams ∧
    ErrorCode.fromInt (-32603) = .InternalError ∧
    ErrorCode.fromInt n = .ServerError n ∧
    ErrorCode.fromInt (-32000) = .ApplicationError (-32000) ∧
    ErrorCode.fromInt (-32099) = .ApplicationError (-32099) ∧
    ErrorCode.fromInt m = .ApplicationError m :=
  ⟨by decide, by decide, by decide, by decide, by decide,
   errorCode_fromInt_server n hn1 hn2, by decide, by decide,
   errorCode_fromInt_application m hm1 hm2 hm3 hm4 hm5 hm6⟩

/-- C3 witness: the amended claim evaluated at n = −32050 and m = 123. -/
theorem errorCode_fromInt_classification_witness :
    ErrorCode.fromInt (-32050) = .ServerError (-32050) ∧
    ErrorCode.fromInt 123 = .ApplicationError 123 := by
  have h := errorCode_fromInt_classification (-32050) 123 (by norm_num) (by norm_num)
    (by norm_num) (by norm_num) (by norm_num) (by norm_num) (by norm_num) (by omega)
  exact ⟨h.2.2.2.2.2.1, h.2.2.2.2.2.2.2.2⟩

/-! ### C7 — error-code integer round-trip -/

/-- C7: for each of the five named codes, and for any representative
server-error code (payload strictly inside the band) and application code
(canonical payload), converting to the integer and back yields the
original code. -/
theorem errorCode_roundtrip_named_and_representative (n m : Int)
    (hn : (ErrorCode.ServerError n).isCanonical = true)
    (hm : (ErrorCode.ApplicationError m).isCanonical = true) :
    ErrorCode.fromInt (ErrorCode.toInt .ParseError) = .ParseError ∧
    ErrorCode.fromInt (ErrorCode.toInt .InvalidRequest) = .InvalidRequest ∧
    ErrorCode.fromInt (ErrorCode.toInt .MethodNotFound) = .MethodNotFound ∧
    ErrorCode.fromInt (ErrorCode.toInt .InvalidParams) = .InvalidParams ∧
    ErrorCode.fromInt (ErrorCode.toInt .InternalError) = .InternalError ∧
    ErrorCode.fromInt (ErrorCode.toInt (.ServerError n)) = .ServerError n ∧
    ErrorCode.fromInt (ErrorCode.toInt (.ApplicationError m)) = .ApplicationError m :=
  ⟨by decide, by decide, by decide, by decide, by decide,
   errorCode_fromInt_toInt _ hn, errorCode_fromInt_toInt _ hm⟩

/-- C7 witness: the round-trip evaluated at the server code −32050 and the
application code 42. -/
theorem errorCode_roundtrip_witness :
    ErrorCode.fromInt (ErrorCode.toInt (.ServerError (-32050))) = .ServerError (-32050) ∧
    ErrorCode.fromInt (ErrorCode.toInt (.ApplicationError 42)) = .ApplicationError 42 := by
  have h := errorCode_roundtrip_named_and_representative (-32050) 42 (by decide) (by decide)
  exact ⟨h.2.2.2.2.2.1, h.2.2.2.2.2.2⟩

/-! ### C6 — identifier decode shapes -/

/-- C6: `RequestId` decode succeeds exactly on integers, finite floats,
strings and null (shown for every such shape), and fails on a non-finite
float with "invalid number" and on arrays, objects and booleans with the
visitor's type error. -/
theorem requestId_decode_shapes (n r w : Int) (s : String) (b : Bool)
    (xs : List Json) (kvs : List (String × Json)) :
    RequestId.deserialize .null = .ok .Null ∧
    RequestId.deserialize (.num (.int n)) = .ok (.Number (.int n)) ∧
    RequestId.deserialize (.num (.float true r)) = .ok (.Number (.float true r)) ∧
    RequestId.deserialize (.str s) = .ok (.String s) ∧
    RequestId.deserialize (.num (.float false w)) = .error (.custom "invalid number") ∧
    RequestId.deserialize (.arr xs) = .error (.typeMismatch "a string, number, or null") ∧
    RequestId.deserialize (.obj kvs) = .error (.typeMismatch "a string, number, or null") ∧
    RequestId.deserialize (.bool b) = .error (.typeMismatch "a string, number, or null") :=
  ⟨rfl, rfl, rfl, rfl, rfl, rfl, rfl, rfl⟩

/-! ### C9 — empty batch -/

/-- C9: the empty JSON array decodes as a `Message` to an empty
`BatchRequest` (the empty-batch open question is resolved toward
acceptance). -/
theorem message_empty_array_batch :
    Message.deserialize (.arr []) = .ok (.BatchRequest []) := rfl

/-! ### C2 — discriminator trial order -/

/-- C2: on the generic JSON value, `Message` decode tries Notification,
Request, Response, then batch-of-Request, in that order; the first success
determines the variant and suppresses later attempts; if all four fail the
result is the single aggregate error. -/
theorem message_trial_order (v : Json) :
    (∀ n, Notification.deserialize v = .ok n →
      Message.deserialize v = .ok (.Notification n)) ∧
    (∀ e₁ r, Notification.deserialize v = .error e₁ →
      Request.deserialize v = .ok r →
      Message.deserialize v = .ok (.Request r)) ∧
    (∀ e₁ e₂ r, Notification.deserialize v = .error e₁ →
      Request.deserialize v = .error e₂ →
      Response.deserialize v = .ok r →
      Message.deserialize v = .ok (.Response r)) ∧
    (∀ e₁ e₂ e₃ rs, Notification.deserialize v = .error e₁ →
      Request.deserialize v = .error e₂ →
      Response.deserialize v = .error e₃ →
      decodeRequestSeq v = .ok rs →
      Message.deserialize v = .ok (.BatchRequest rs)) ∧
    (∀ e₁ e₂ e₃ e₄, Notification.deserialize v = .error e₁ →
      Request.deserialize v = .error e₂ →
      Response.deserialize v = .error e₃ →
      decodeRequestSeq v = .error e₄ →
      Message.deserialize v =
        .error (.custom "data did not match any variant of Message")) := by
  refine ⟨?_, ?_, ?_, ?_, ?_⟩ <;> intros <;> simp only [Message.deserialize, *]

/-- C2 witness: a boolean payload fails all four attempts and yields the
aggregate error. -/
theorem message_trial_order_witness :
    Message.deserialize (.bool true) =
      .error (.custom "data did not match any variant of Message") :=
  (message_trial_order (.bool true)).2.2.2.2 _ _ _ _ rfl rfl rfl rfl

/-! ### C10 — batch with an invalid element -/

/-- An element failing `Request` decode makes the whole element loop of
`Vec::<Request>::deserialize` fail. -/
lemma decodeRequests_isErr_of_mem {xs : List Json} {x : Json} {e : DecodeError}
    (hmem : x ∈ xs) (he : Request.deserialize x = .error e) :
    (decodeRequests xs).isErr = true := by
  induction xs with
  | nil => cases hmem
  | cons y ys ih =>
    cases hmem with
    | head => simp only [decodeRequests, he, Except.isErr]
    | tail _ h2 =>
      simp only [decodeRequests]
      cases hy : Request.deserialize y with
      | error e2 => rfl
      | ok r =>
        have hih := ih h2
        cases hr : decodeRequests ys with
        | error e2 => rfl
        | ok rs => rw [hr] at hih; simp [Except.isErr] at hih

/-- C10: a JSON array containing at least one element that is not a valid
`Request` fails `Message` decode with the aggregate error; no partial
batch of the valid elements is produced. -/
theorem message_batch_invalid_element (xs : List Json) (x : Json) (e : DecodeError)
    (hmem : x ∈ xs) (he : Request.deserialize x = .error e) :
    Message.deserialize (.arr xs) =
      .error (.custom "data did not match any variant of Message") := by
  have h := decodeRequests_isErr_of_mem hmem he
  simp only [Message.deserialize, Notification.deserialize, Request.deserialize,
    Response.deserialize, decodeRequestSeq]
  cases hr : decodeRequests xs with
  | error e2 => rfl
  | ok rs => rw [hr] at h; simp [Except.isErr] at h

/-- C10 witness: a one-element array whose element lacks the required `id`
key fails with the aggregate error. -/
theorem message_batch_invalid_element_witness :
    Message.deserialize (.arr [.obj [("jsonrpc", .str "2.0"), ("method", .str "m")]]) =
      .error (.custom "data did not match any variant of Message") :=
  message_batch_invalid_element _ _ (.missingField "id") (List.Mem.head _) rfl

/-! ### C8 — null `data` normalized to absent -/

/-- C8: decoding an error payload whose `data` field is JSON null yields
exactly what decoding the same payload without the `data` key yields (for
every code and message value), and the spec's concrete example decodes
with `data` absent. -/
theorem responseError_null_data_normalized (c m : Json) :
    ResponseError.deserialize (.obj [("code", c), ("message", m), ("data", .null)]) =
      ResponseError.deserialize (.obj [("code", c), ("message", m)]) ∧
    ResponseError.deserialize
      (.obj [("code", .num (.int (-32601))), ("message", .str "Method not found"),
             ("data", .null)]) =
      .ok ⟨.MethodNotFound, "Method not found", none⟩ := by
  constructor
  · simp only [ResponseError.deserialize]
    cases hc : ErrorCode.deserialize c with
    | error e => simp only [ResponseError.visitMap, hc]; simp
    | ok cc =>
      cases hm : decodeString m with
      | error e => simp only [ResponseError.visitMap, hc, hm]; simp
      | ok mm => simp only [ResponseError.visitMap, hc, hm]; simp [Json.isNull]
  · rfl

/-! ### C1 — encode/decode round-trip -/

/-- A valid identifier decodes back from its own serialization. -/
lemma requestId_roundtrip (i : RequestId) (h : i.isValid = true) :
    RequestId.deserialize i.serialize = .ok i := by
  cases i with
  | Number n =>
    cases n with
    | int m => rfl
    | float fin w =>
      simp only [RequestId.isValid] at h
      subst h
      rfl
  | String s => rfl
  | Null => rfl

/-- A notification decodes back from its own serialization,
unconditionally. -/
lemma notification_roundtrip (nf : Notification) :
    Notification.deserialize nf.serialize = .ok nf := by
  obtain ⟨m, p⟩ := nf
  cases p with
  | none =>
    simp [Notification.serialize, Notification.deserialize, Notification.visitMap,
      JsonRpcVersion.deserialize, decodeString]
  | some pv =>
    simp [Notification.serialize, Notification.deserialize, Notification.visitMap,
      JsonRpcVersion.deserialize, decodeString]

/-- A request with a valid identifier decodes back from its own
serialization. -/
lemma request_roundtrip (r : Request) (h : r.id.isValid = true) :
    Request.deserialize r.serialize = .ok r := by
  obtain ⟨m, p, i⟩ := r
  have hid := requestId_roundtrip i h
  cases p with
  | none =>
    simp [Request.serialize, Request.deserialize, Request.visitMap,
      JsonRpcVersion.deserialize, decodeString, hid]
  | some pv =>
    simp [Request.serialize, Request.deserialize, Request.visitMap,
      JsonRpcVersion.deserialize, decodeString, hid]

/-- A valid error payload decodes back from its own serialization: the
always-emitted `data` field (null when absent) is normalized back to
absent on decode. -/
lemma responseError_roundtrip (e : ResponseError) (h : e.isValid = true) :
    ResponseError.deserialize e.serialize = .ok e := by
  obtain ⟨c, msg, data⟩ := e
  simp only [ResponseError.isValid, Bool.and_eq_true] at h
  obtain ⟨hc, hd⟩ := h
  have hrange := errorCode_toInt_range c hc
  have h1 : ErrorCode.deserialize (ErrorCode.serialize c) = .ok c := by
    simp only [ErrorCode.deserialize, ErrorCode.serialize,
      decodeI64_int _ hrange.1 hrange.2, errorCode_fromInt_toInt c hc]
  cases data with
  | none =>
    simp [ResponseError.serialize, ResponseError.deserialize, ResponseError.visitMap,
      h1, decodeString, Json.isNull]
  | some d =>
    simp only [Bool.not_eq_eq_eq_not, Bool.not_true] at hd
    simp [ResponseError.serialize, ResponseError.deserialize, ResponseError.visitMap,
      h1, decodeString, hd]

/-- A valid response decodes back from its own serialization. -/
lemma response_roundtrip (r : Response) (h : r.isValid = true) :
    Response.deserialize r.serialize = .ok r := by
  obtain ⟨i, res⟩ := r
  cases res with
  | Ok v =>
    simp only [Response.isValid, Bool.and_eq_true] at h
    have hid := requestId_roundtrip i h.1
    simp [Response.serialize, Response.deserialize, Response.visitMap,
      JsonRpcVersion.deserialize, hid]
  | Err e =>
    simp only [Response.isValid, Bool.and_eq_true] at h
    have hid := requestId_roundtrip i h.1
    have he := responseError_roundtrip e h.2
    simp [Response.serialize, Response.deserialize, Response.visitMap,
      JsonRpcVersion.deserialize, hid, he]

/-- C1: every Notification round-trips through encode/decode; every
Request whose identifier respects the data-model invariant (a finite
number) round-trips; every Response respecting the invariants (valid
identifier, canonical error code, no explicit-null `data`) round-trips. -/
theorem encode_decode_roundtrip (nf : Notification) (rq : Request) (rs : Response)
    (h1 : rq.id.isValid = true) (h2 : rs.isValid = true) :
    Notification.deserialize nf.serialize = .ok nf ∧
    Request.deserialize rq.serialize = .ok rq ∧
    Response.deserialize rs.serialize = .ok rs :=
  ⟨notification_roundtrip nf, request_roundtrip rq h1, response_roundtrip rs h2⟩

/-- C1 witness: the round-trip evaluated at a concrete notification,
request and error response. -/
theorem encode_decode_roundtrip_witness :
    Notification.deserialize
      (Notification.serialize ⟨"update", some (.arr [.num (.int 1)])⟩) =
      .ok ⟨"update", some (.arr [.num (.int 1)])⟩ ∧
    Request.deserialize
      (Request.serialize ⟨"subtract", some (.arr [.num (.int 42), .num (.int 23)]),
        .Number (.int 1)⟩) =
      .ok ⟨"subtract", some (.arr [.num (.int 42), .num (.int 23)]), .Number (.int 1)⟩ ∧
    Response.deserialize
      (Response.serialize ⟨.Number (.int 1),
        .Err ⟨.MethodNotFound, "Method not found", none⟩⟩) =
      .ok ⟨.Number (.int 1), .Err ⟨.MethodNotFound, "Method not found", none⟩⟩ :=
  encode_decode_roundtrip _ _ _ rfl rfl

/-! ### C5 — notification forbids `id` -/

/-- The notification field loop fails whenever an `id` key occurs anywhere
in the stream, whatever the accumulated state. -/
lemma notification_visitMap_isErr_of_id :
    ∀ (fields : List (String × Json)) (j : Option JsonRpcVersion)
      (m : Option String) (p : Option (Option Json)),
    "id" ∈ fieldKeys fields →
    (Notification.visitMap fields j m p).isErr = true := by
  intro fields
  induction fields with
  | nil => intro j m p h; simp [fieldKeys] at h
  | cons kv rest ih =>
    obtain ⟨k, v⟩ := kv
    intro j m p h
    simp only [fieldKeys, List.map_cons, List.mem_cons] at h
    simp only [Notification.visitMap]
    by_cases hk1 : k = "jsonrpc"
    · have hrest : "id" ∈ fieldKeys rest := by
        rcases h with h | h
        · exact absurd (h.trans hk1) (by decide)
        · exact h
      rw [if_pos hk1]
      by_cases hj : j.isSome = true
      · rw [if_pos hj]; rfl
      · rw [if_neg hj]
        cases JsonRpcVersion.deserialize v with
        | error e => rfl
        | ok ver => exact ih _ _ _ hrest
    · rw [if_neg hk1]
      by_cases hk2 : k = "method"
      · have hrest : "id" ∈ fieldKeys rest := by
          rcases h with h | h
          · exact absurd (h.trans hk2) (by decide)
          · exact h
        rw [if_pos hk2]
        by_cases hm : m.isSome = true
        · rw [if_pos hm]; rfl
        · rw [if_neg hm]
          cases decodeString v with
          | error e => rfl
          | ok mm => exact ih _ _ _ hrest
      · rw [if_neg hk2]
        by_cases hk3 : k = "params"
        · have hrest : "id" ∈ fieldKeys rest := by
            rcases h with h | h
            · exact absurd (h.trans hk3) (by decide)
            · exact h
          rw [if_pos hk3]
          by_cases hp : p.isSome = true
          · rw [if_pos hp]; rfl
          · rw [if_neg hp]
            exact ih _ _ _ hrest
        · rw [if_neg hk3]
          by_cases hk4 : k = "id"
          · rw [if_pos hk4]; rfl
          · rw [if_neg hk4]; rfl

/-- C5: decode of any object containing an `id` key fails, whatever the
key's value or position; on an otherwise-valid notification object the
error is the dedicated forbidden-field message, which differs from the
unknown-field error an out-of-schema key (here `extra`) produces. -/
theorem notification_rejects_id (fields : List (String × Json)) (v : Json)
    (f : String) (h : "id" ∈ fieldKeys fields) :
    (Notification.deserialize (.obj fields)).isErr = true ∧
    Notification.deserialize
      (.obj [("jsonrpc", .str "2.0"), ("method", .str "update"), ("id", v)]) =
      .error (.custom "notifications must not include an id") ∧
    Notification.deserialize
      (.obj [("jsonrpc", .str "2.0"), ("method", .str "update"), ("extra", v)]) =
      .error (.unknownField "extra") ∧
    DecodeError.custom "notifications must not include an id" ≠ .unknownField f :=
  ⟨notification_visitMap_isErr_of_id fields none none none h, rfl, rfl,
   fun hc => DecodeError.noConfusion hc⟩

/-- C5 witness: the claim evaluated on an object whose only key is `id`. -/
theorem notification_rejects_id_witness :
    (Notification.deserialize (.obj [("id", .null)])).isErr = true ∧
    Notification.deserialize
      (.obj [("jsonrpc", .str "2.0"), ("method", .str "update"), ("id", .null)]) =
      .error (.custom "notifications must not include an id") ∧
    Notification.deserialize
      (.obj [("jsonrpc", .str "2.0"), ("method", .str "update"), ("extra", .null)]) =
      .error (.unknownField "extra") ∧
    DecodeError.custom "notifications must not include an id" ≠ .unknownField "id" :=
  notification_rejects_id [("id", .null)] .null "id" (by decide)

/-! ### C4 — exactly one of `result` / `error` -/

/-- The response field loop fails whenever both a `result` and an `error`
key are to be found (in the remaining stream or already accumulated),
provided the two accumulators are not both set — as they never are, since
setting the second one is itself an error. -/
lemma response_visitMap_isErr_of_both :
    ∀ (fields : List (String × Json)) (j : Option JsonRpcVersion)
      (i : Option RequestId) (res err : Option ResponseResult),
    ("result" ∈ fieldKeys fields ∨ res.isSome = true) →
    ("error" ∈ fieldKeys fields ∨ err.isSome = true) →
    ¬(res.isSome = true ∧ err.isSome = true) →
    (Response.visitMap fields j i res err).isErr = true := by
  intro fields
  induction fields with
  | nil =>
    intro j i res err h1 h2 h3
    simp only [fieldKeys, List.map_nil, List.not_mem_nil, false_or] at h1 h2
    exact absurd ⟨h1, h2⟩ h3
  | cons kv rest ih =>
    obtain ⟨k, v⟩ := kv
    intro j i res err h1 h2 h3
    simp only [fieldKeys, List.map_cons, List.mem_cons] at h1 h2
    simp only [Response.visitMap]
    by_cases hk1 : k = "jsonrpc"
    · have h1a : "result" ∈ fieldKeys rest ∨ res.isSome = true := by
        rcases h1 with (h | h) | h
        · exact absurd (h.trans hk1) (by decide)
        · exact Or.inl h
        · exact Or.inr h
      have h2a : "error" ∈ fieldKeys rest ∨ err.isSome = true := by
        rcases h2 with (h | h) | h
        · exact absurd (h.trans hk1) (by decide)
        · exact Or.inl h
        · exact Or.inr h
      rw [if_pos hk1]
      by_cases hj : j.isSome = true
      · rw [if_pos hj]; rfl
      · rw [if_neg hj]
        cases JsonRpcVersion.deserialize v with
        | error e => rfl
        | ok ver => exact ih _ _ _ _ h1a h2a h3
    · rw [if_neg hk1]
      by_cases hk2 : k = "id"
      · have h1a : "result" ∈ fieldKeys rest ∨ res.isSome = true := by
          rcases h1 with (h | h) | h
          · exact absurd (h.trans hk2) (by decide)
          · exact Or.inl h
          · exact Or.inr h
        have h2a : "error" ∈ fieldKeys rest ∨ err.isSome = true := by
          rcases h2 with (h | h) | h
          · exact absurd (h.trans hk2) (by decide)
          · exact Or.inl h
          · exact Or.inr h
        rw [if_pos hk2]
        by_cases hi : i.isSome = true
        · rw [if_pos hi]; rfl
        · rw [if_neg hi]
          cases RequestId.deserialize v with
          | error e => rfl
          | ok iv => exact ih _ _ _ _ h1a h2a h3
      · rw [if_neg hk2]
        by_cases hk3 : k = "result"
        · rw [if_pos hk3]
          by_cases hres : res.isSome = true
          · rw [if_pos hres]; rfl
          · rw [if_neg hres]
            by_cases herr : err.isSome = true
            · rw [if_pos herr]; rfl
            · rw [if_neg herr]
              have h2a : "error" ∈ fieldKeys rest := by
                rcases h2 with (h | h) | h
                · exact absurd (h.trans hk3) (by decide)
                · exact h
                · exact absurd h herr
              exact ih _ _ _ _ (Or.inr rfl) (Or.inl h2a)
                (fun hb => herr hb.2)
        · rw [if_neg hk3]
          by_cases hk4 : k = "error"
          · rw [if_pos hk4]
            by_cases herr : err.isSome = true
            · rw [if_pos herr]; rfl
            · rw [if_neg herr]
              by_cases hres : res.isSome = true
              · rw [if_pos hres]; rfl
              · rw [if_neg hres]
                have h1a : "result" ∈ fieldKeys rest := by
                  rcases h1 with (h | h) | h
                  · exact absurd (h.trans hk4) (by decide)
                  · exact h
                  · exact absurd h hres
                cases ResponseError.deserialize v with
                | error e => rfl
                | ok pe =>
                  exact ih _ _ _ _ (Or.inl h1a) (Or.inr rfl)
                    (fun hb => hres hb.1)
          · rw [if_neg hk4]; rfl

/-- The response field loop with neither accumulator set fails when the
stream contains neither a `result` nor an `error` key. -/
lemma response_visitMap_isErr_of_neither :
    ∀ (fields : List (String × Json)) (j : Option JsonRpcVersion)
      (i : Option RequestId),
    "result" ∉ fieldKeys fields → "error" ∉ fieldKeys fields →
    (Response.visitMap fields j i none none).isErr = true := by
  intro fields
  induction fields with
  | nil =>
    intro j i h1 h2
    cases j with
    | none => rfl
    | some u =>
      cases i with
      | none => rfl
      | some iv => rfl
  | cons kv rest ih =>
    obtain ⟨k, v⟩ := kv
    intro j i h1 h2
    simp only [fieldKeys, List.map_cons, List.mem_cons, not_or] at h1 h2
    simp only [Response.visitMap]
    by_cases hk1 : k = "jsonrpc"
    · rw [if_pos hk1]
      by_cases hj : j.isSome = true
      · rw [if_pos hj]; rfl
      · rw [if_neg hj]
        cases JsonRpcVersion.deserialize v with
        | error e => rfl
        | ok ver => exact ih _ _ h1.2 h2.2
    · rw [if_neg hk1]
      by_cases hk2 : k = "id"
      · rw [if_pos hk2]
        by_cases hi : i.isSome = true
        · rw [if_pos hi]; rfl
        · rw [if_neg hi]
          cases RequestId.deserialize v with
          | error e => rfl
          | ok iv => exact ih _ _ h1.2 h2.2
      · rw [if_neg hk2]
        rw [if_neg (fun hh => h1.1 hh.symm)]
        rw [if_neg (fun hh => h2.1 hh.symm)]
        rfl

/-- C4: response decode fails on any object containing both `result` and
`error` keys, fails on any object containing neither, and on an otherwise
valid object with exactly one of the two it succeeds, with outcome `Ok`
for `result` and `Err` for `error`. -/
theorem response_exactly_one (f₁ f₂ : List (String × Json)) (i w e : Json)
    (rid : RequestId) (pe : ResponseError)
    (hb1 : "result" ∈ fieldKeys f₁) (hb2 : "error" ∈ fieldKeys f₁)
    (hn1 : "result" ∉ fieldKeys f₂) (hn2 : "error" ∉ fieldKeys f₂)
    (hi : RequestId.deserialize i = .ok rid)
    (he : ResponseError.deserialize e = .ok pe) :
    (Response.deserialize (.obj f₁)).isErr = true ∧
    (Response.deserialize (.obj f₂)).isErr = true ∧
    Response.deserialize
      (.obj [("jsonrpc", .str "2.0"), ("id", i), ("result", w)]) =
      .ok ⟨rid, .Ok w⟩ ∧
    Response.deserialize
      (.obj [("jsonrpc", .str "2.0"), ("id", i), ("error", e)]) =
      .ok ⟨rid, .Err pe⟩ := by
  refine ⟨response_visitMap_isErr_of_both f₁ none none none none
      (Or.inl hb1) (Or.inl hb2) (by simp),
    response_visitMap_isErr_of_neither f₂ none none hn1 hn2, ?_, ?_⟩
  · simp [Response.deserialize, Response.visitMap, JsonRpcVersion.deserialize, hi]
  · simp [Response.deserialize, Response.visitMap, JsonRpcVersion.deserialize, hi, he]

/-- C4 witness: evaluated on an object with both keys, the empty object,
and valid result-only and error-only responses. -/
theorem response_exactly_one_witness :
    (Response.deserialize (.obj [("result", .null), ("error", .null)])).isErr = true ∧
    (Response.deserialize (.obj [])).isErr = true ∧
    Response.deserialize
      (.obj [("jsonrpc", .str "2.0"), ("id", .num (.int 1)), ("result", .num (.int 19))]) =
      .ok ⟨.Number (.int 1), .Ok (.num (.int 19))⟩ ∧
    Response.deserialize
      (.obj [("jsonrpc", .str "2.0"), ("id", .num (.int 1)),
             ("error", .obj [("code", .num (.int (-32601))), ("message", .str "x")])]) =
      .ok ⟨.Number (.int 1), .Err ⟨.MethodNotFound, "x", none⟩⟩ :=
  response_exactly_one [("result", .null), ("error", .null)] [] (.num (.int 1))
    (.num (.int 19)) (.obj [("code", .num (.int (-32601))), ("message", .str "x")])
    (.Number (.int 1)) ⟨.MethodNotFound, "x", none⟩
    (by decide) (by decide) (by decide) (by decide) rfl rfl
